import Mathlib

/-!
Verification of the row-marshaling behavior of the KNIME LWReg integration
(`my_extension.py`) and of the chemistry type-adapter shim (`chemistry.py`).

The external registration library (`lwreg`) is modelled by oracles: the
outcome of each `lwreg.register` call is an input to the model, as is the
value returned by `lwreg.query` and the state of the filesystem.  The code
of the repository itself — branching, row iteration, result classification
and table construction — is embedded faithfully.
-/

/-- Outcome of a single `lwreg.register(smiles=...)` call, as seen by the
caller in `LWRegRegisterNode.execute`: a numeric compound id, an
`lwreg.RegistrationFailureReasons` member (carrying its `.name`), or a
raised exception (carrying its message). -/
inductive RegOutcome where
  | ok (id : Int)
  | failReason (name : String)
  | exc (msg : String)
  deriving DecidableEq

/-- One row of the Registrar output table: columns `SMILES`,
`Compound ID` (a number, or `none` for the `np.nan` missing-value marker)
and `Status`. -/
structure RegRow where
  smiles : String
  compoundId : Option Int
  status : String
  deriving DecidableEq

/-- The record appended for one input row, following the `try`/`except`
and `isinstance` branches of `LWRegRegisterNode.execute` (lines 188-215 of
`my_extension.py`). -/
def mkRegRow (s : String) (o : RegOutcome) : RegRow :=
  match o with
  | .ok id => ⟨s, some id, "Success"⟩
  | .failReason name => ⟨s, none, "Failed: " ++ name⟩
  | .exc msg => ⟨s, none, "Failed: " ++ msg⟩

/-- The message passed to `LOGGER.error` in the `except` branch. -/
def regLogMsg (s msg : String) : String :=
  "Failed to register compound " ++ s ++ ": " ++ msg

/-- The Registrar row loop (`for idx, smiles in smiles_data.items(): ...`):
walks the structure column, appending one result record per row and one
log entry per caught exception.  `oracle k s` is the outcome of the
`k`-th `lwreg.register` call, made with structure string `s`. -/
def registrarLoop (oracle : Nat → String → RegOutcome) :
    Nat → List String → List RegRow × List String
  | _, [] => ([], [])
  | k, s :: rest =>
    let tail := registrarLoop oracle (k + 1) rest
    match oracle k s with
    | .exc msg => (mkRegRow s (.exc msg) :: tail.1, regLogMsg s msg :: tail.2)
    | o => (mkRegRow s o :: tail.1, tail.2)

/-- The `registration_results` list accumulated by the Registrar over the
values of the structure column, in input iteration order. -/
def registrarResults (oracle : Nat → String → RegOutcome) (rows : List String) :
    List RegRow :=
  (registrarLoop oracle 0 rows).1

/-- The log entries emitted by the Registrar row loop. -/
def registrarLog (oracle : Nat → String → RegOutcome) (rows : List String) :
    List String :=
  (registrarLoop oracle 0 rows).2

/-- A status string of the `Failed:` class. -/
def startsWithFailed (s : String) : Prop :=
  ∃ t, s = "Failed:" ++ t

/-- A concrete registration oracle used to instantiate the theorems: the
string `bad` draws a library failure reason, the third call raises, every
other call returns a fresh numeric id. -/
def oracleW : Nat → String → RegOutcome := fun k s =>
  if s = "bad" then RegOutcome.failReason "PARSE_FAILURE"
  else if k = 2 then RegOutcome.exc "boom"
  else RegOutcome.ok (Int.ofNat (k + 1))

/-- A call into the lwreg library made by `LWRegRegisterNode.execute`:
the process-wide `lwreg.set_default_config` reconfiguration, or one
`lwreg.register` call. -/
inductive RegistrarStep where
  | setDefaultConfig (dbname dbtype : String)
  | registerCall (smiles : String)
  deriving DecidableEq

/-- The Registrar input table: its column names together with the values
of the structure column (`input_df[self.smiles_column]`, meaningful only
when that column is present). -/
structure RegTable where
  columns : List String
  smilesData : List String
  deriving DecidableEq

/-- Model of `LWRegRegisterNode.execute` (lines 168-221 of `my_extension.py`):
first reconfigures the process-wide lwreg connection via
`set_default_config`, then checks that the structure column exists —
raising a `ValueError` when it does not — and otherwise runs the row
loop, one `register` call per row.  Returns the trace of library calls
together with either the result rows and log or the error message. -/
def registrarExecute (dbPath smilesCol : String) (tbl : RegTable)
    (oracle : Nat → String → RegOutcome) :
    List RegistrarStep × Except String (List RegRow × List String) :=
  let trace0 := [RegistrarStep.setDefaultConfig dbPath "sqlite3"]
  if smilesCol ∈ tbl.columns then
    (trace0 ++ tbl.smilesData.map RegistrarStep.registerCall,
      Except.ok (registrarLoop oracle 0 tbl.smilesData))
  else
    (trace0,
      Except.error ("Column " ++ smilesCol ++ " not found in the input data."))

/-- The node parameters of `LWRegInitNode`, with the source field names. -/
structure InitParams where
  db_path_input : String
  db_standardization_operations : String
  db_remove_Hs : Bool
  db_conformer_mode : Bool
  db_canonical_orientation : Bool
  deriving DecidableEq

/-- The `init_custom_config` record passed to `utils._initdb` (lines
102-111 of `my_extension.py`). -/
structure InitConfig where
  dbname : String
  dbtype : String
  standardization : List String
  removeHs : Nat
  useTautomerHashv2 : Nat
  registerConformers : Nat
  numConformerDigits : Nat
  lwregSchema : String
  deriving DecidableEq

/-- The observable effects of one `LWRegInitNode.execute` run: the
configurations passed to `utils._initdb(config=..., confirm=True)` and
the flow variables published on `exec_context`. -/
structure InitExecEffects where
  initdbCalls : List InitConfig
  flowVars : List (String × String)
  deriving DecidableEq

/-- Model of `LWRegInitNode.execute` (lines 90-116): an early return when the
target file exists; otherwise the standardization list is extended with
`canonicalize` when the toggle is set, the configuration record is
built, the flow variable `lwreg_db_path` is published and `_initdb` is
called once with `confirm=True`. -/
def initExecute (p : InitParams) (pathExists : Bool) : InitExecEffects :=
  if pathExists then ⟨[], []⟩
  else
    let standardization :=
      [p.db_standardization_operations] ++
        (if p.db_canonical_orientation then ["canonicalize"] else [])
    let cfg : InitConfig :=
      ⟨p.db_path_input, "sqlite3", standardization,
        if p.db_remove_Hs then 1 else 0, 0,
        if p.db_conformer_mode then 1 else 0, 3, ""⟩
    ⟨[cfg], [("lwreg_db_path", p.db_path_input)]⟩

/-- The warnings `LWRegInitNode.configure` can emit through
`configure_context.set_warning`, by branch. -/
inductive InitWarning where
  | fileExists
  | invalidPath
  | dirMissing
  deriving DecidableEq

/-- The filesystem facts consulted by `LWRegInitNode.configure`:
whether the target file exists and whether its parent directory does. -/
structure FsState where
  pathExists : Bool
  parentExists : Bool
  deriving DecidableEq

/-- Python `str.strip()`: the string with leading and trailing
whitespace characters removed. -/
def pyStrip (s : String) : String :=
  ⟨((s.data.dropWhile Char.isWhitespace).reverse.dropWhile
    Char.isWhitespace).reverse⟩

/-- Model of `LWRegInitNode.configure` (lines 72-88): warns when the file already
exists; raises `ValueError` (returning `some` message) when the path is
empty or whitespace-only, or when the parent directory is missing. -/
def initConfigure (db_path_input : String) (fs : FsState) :
    List InitWarning × Option String :=
  let ws := if fs.pathExists then [InitWarning.fileExists] else []
  if db_path_input = "" ∨ pyStrip db_path_input = "" then
    (ws ++ [InitWarning.invalidPath],
      some "You must provide a valid path to the database.")
  else if fs.parentExists = false then
    (ws ++ [InitWarning.dirMissing],
      some "You must provide a valid path to the database.")
  else
    (ws, none)

/-- The value returned by `lwreg.query`: a list of
`(molregno, conf_id)` tuples, or a list of bare molregnos — the Python
code distinguishes the two shapes by an `isinstance(..., tuple)` test on
the first element. -/
inductive QueryResults where
  | pairs (l : List (Int × Int))
  | bare (l : List Int)
  deriving DecidableEq

/-- One row of the Querier output table: columns `Query`, `Molregno`
and `Conf_ID` (with `none` for the `np.nan` missing-value marker). -/
structure QueryRow where
  query : String
  molregno : Int
  confId : Option Int
  deriving DecidableEq

/-- The result-shape normalization of `LWRegQueryNode.execute` (lines
275-304): when the returned list is nonempty and its first element is a
tuple, both id columns are populated; otherwise the `Conf_ID` column is
filled with the missing-value marker; the query string is inserted as
the first column of every row; row order is the order returned by the
library. -/
def queryExecute (query_input : String) (qr : QueryResults) : List QueryRow :=
  match qr with
  | .pairs [] => []
  | .pairs l => l.map fun mc => ⟨query_input, mc.1, some mc.2⟩
  | .bare l => l.map fun m => ⟨query_input, m, none⟩

/-- A retrieval key passed to `lwreg.retrieve`: a bare molregno or a
`(molregno, conf_id)` tuple. -/
inductive RetKey where
  | bare (m : Int)
  | pair (m : Int) (c : Int)
  deriving DecidableEq

/-- The Retriever input table: the `Molregno` column, and the `Conf_ID`
column when present (`none` = column absent; a cell holds `none` for a
`NaN` entry). -/
structure RetTable where
  molregnoCol : List Int
  confCol : Option (List (Option Int))

/-- The key-building step of `LWRegRetrieveNode.execute` (lines 371-385):
with a `Conf_ID` column, each row yields `(Molregno, Conf_ID)` when its
`Conf_ID` cell is not `NaN` and the bare `Molregno` otherwise; without
the column, every row yields its bare `Molregno`. -/
def buildRetrieveIds (tbl : RetTable) : List RetKey :=
  match tbl.confCol with
  | some cs =>
    (tbl.molregnoCol.zip cs).map fun mc =>
      match mc.2 with
      | some c => RetKey.pair mc.1 c
      | none => RetKey.bare mc.1
  | none => tbl.molregnoCol.map RetKey.bare

/-- Runtime kind (Python class) of a string-backed KNIME chemistry
value, including the kinds deliberately absent from the adapter table
(`CML`, `Rxn` and their adapter variants). -/
inductive MolKind where
  | ctab
  | helm
  | helmAdapter
  | inchi
  | inchiAdapter
  | mol
  | molAdapter
  | mol2
  | mol2Adapter
  | sdf
  | sdfAdapter
  | smarts
  | smartsAdapter
  | smiles
  | smilesAdapter
  | sln
  | cml
  | cmlAdapter
  | rxn
  | rxnAdapter
  deriving DecidableEq

/-- The RDKit conversion functions appearing as values of the dict built
by `get_knime_to_rdkit_mol` in `chemistry.py`. -/
inductive ParseFn where
  | molFromMolBlock
  | molFromHELM
  | molFromInchi
  | molFromMol2Block
  | molFromSmarts
  | molFromSmiles
  | molFromSLN
  deriving DecidableEq

/-- An RDKit `Chem.Mol` object, kept abstract. -/
structure Mol where
  molId : Nat
  deriving DecidableEq

/-- A value handled by `_to_rdkit_scalar`: a string-backed KNIME
chemistry value of some runtime kind (adapter values are `str`
subclasses, so they carry their text), or an RDKit molecule object. -/
inductive ChemVal where
  | strVal (k : MolKind) (s : String)
  | rdkitMol (m : Mol)
  deriving DecidableEq

/-- The dict of `get_knime_to_rdkit_mol` (lines 307-351 of
`chemistry.py`), restricted to the string-backed kinds: `some fn` when
the kind is a key, `none` when it is absent — the commented-out
CML/Rxn kinds, and SLN when the optional `rdSLNParse` sub-module could
not be imported.  The `Chem.Mol` passthrough entry is applied directly
in `toRdkitScalar` below. -/
def knimeToRdkitMol (slnAvailable : Bool) : MolKind → Option ParseFn
  | .ctab => some .molFromMolBlock
  | .helmAdapter => some .molFromHELM
  | .helm => some .molFromHELM
  | .inchiAdapter => some .molFromInchi
  | .inchi => some .molFromInchi
  | .molAdapter => some .molFromMolBlock
  | .mol => some .molFromMolBlock
  | .mol2Adapter => some .molFromMol2Block
  | .mol2 => some .molFromMol2Block
  | .sdfAdapter => some .molFromMolBlock
  | .sdf => some .molFromMolBlock
  | .smartsAdapter => some .molFromSmarts
  | .smarts => some .molFromSmarts
  | .smilesAdapter => some .molFromSmiles
  | .smiles => some .molFromSmiles
  | .sln => if slnAvailable then some .molFromSLN else none
  | .cml => none
  | .cmlAdapter => none
  | .rxn => none
  | .rxnAdapter => none

/-- The `TypeError` raised by `_to_rdkit_scalar`, naming the unsupported
value and its runtime kind. -/
structure UnsupportedTypeErr where
  val : ChemVal
  kind : MolKind
  deriving DecidableEq

/-- Model of `_to_rdkit_scalar` (lines 368-385 of `chemistry.py`): `None` maps to
`None` without any lookup; otherwise the runtime kind of the value is looked
up in the table: a string-backed value is coerced to its text and
parsed (`run fn text`, itself allowed to return `none` on a parse
failure), an RDKit molecule is passed through unchanged by the
passthrough entry, and a kind absent from the table raises a
`TypeError`. -/
def toRdkitScalar (slnAvailable : Bool) (run : ParseFn → String → Option Mol) :
    Option ChemVal → Except UnsupportedTypeErr (Option Mol)
  | none => .ok none
  | some (.rdkitMol m) => .ok (some m)
  | some (.strVal k s) =>
    match knimeToRdkitMol slnAvailable k with
    | some fn => .ok (run fn s)
    | none => .error ⟨.strVal k s, k⟩

/-- A concrete parser oracle used to instantiate the adapter theorems. -/
def runW : ParseFn → String → Option Mol := fun _ _ => some ⟨7⟩

/-- The Python class a value factory was constructed with
(`self.value_class`), one per chemistry value type of `chemistry.py`. -/
inductive ValueCls where
  | cdxml
  | cml
  | cmlAdapter
  | ctab
  | helm
  | helmAdapter
  | inchi
  | inchiAdapter
  | mol
  | molAdapter
  | mol2
  | mol2Adapter
  | rxn
  | rxnAdapter
  | sdf
  | sdfAdapter
  | sln
  | smarts
  | smartsAdapter
  | smiles
  | smilesAdapter
  deriving DecidableEq

/-- A string-based chemistry value: an instance of one of the `str`
subclasses, identified by its class and its string content. -/
structure StringValue where
  cls : ValueCls
  content : String
  deriving DecidableEq

/-- Model of `StringBasedValueFactory.encode` (lines 85-88 of `chemistry.py`):
`None ↦ None`, otherwise `str(value)` — the string content. -/
def stringFactoryEncode : Option StringValue → Option String
  | none => none
  | some v => some v.content

/-- Model of `StringBasedValueFactory.decode` (lines 80-83) for the factory
constructed with value class `cls`: `None ↦ None`, otherwise
`self.value_class(storage)`. -/
def stringFactoryDecode (cls : ValueCls) : Option String → Option StringValue
  | none => none
  | some s => some ⟨cls, s⟩

/-- An adapter chemistry value (`AdapterValue`, lines 68-72): string
content plus the `_adapters` metadata of arbitrary type `α`, itself
possibly `None`. -/
structure AdapterVal (α : Type) where
  cls : ValueCls
  content : String
  adapters : Option α
  deriving DecidableEq

/-- The two-entry dict produced by `AdapterValueFactory.encode` (lines
101-104): the string form of the value under key `0` and the
`_adapters` metadata under key `1`. -/
structure AdapterStorage (α : Type) where
  key0 : String
  key1 : Option α
  deriving DecidableEq

/-- Model of `AdapterValueFactory.encode`: `None ↦ None`, otherwise the
two-entry record. -/
def adapterFactoryEncode {α : Type} :
    Option (AdapterVal α) → Option (AdapterStorage α)
  | none => none
  | some v => some ⟨v.content, v.adapters⟩

/-- Model of `AdapterValueFactory.decode` (lines 96-99) for the factory
constructed with value class `cls`: `None ↦ None`, otherwise
`self.value_class(storage["0"], storage["1"])`. -/
def adapterFactoryDecode {α : Type} (cls : ValueCls) :
    Option (AdapterStorage α) → Option (AdapterVal α)
  | none => none
  | some st => some ⟨cls, st.key0, st.key1⟩

/-- A concrete Registrar input table without the configured structure
column, used for the counterexample below. -/
def regTableW : RegTable := ⟨["Other"], []⟩

/-- Concrete Initializer parameters used for counterexample and
witnesses. -/
def initParamsW : InitParams := ⟨"lwreg.sql", "fragment", false, false, false⟩

lemma registrarLoop_fst_get? (oracle : Nat → String → RegOutcome) :
    ∀ (rows : List String) (k i : Nat),
      ((registrarLoop oracle k rows).1.get? i) =
        (rows.get? i).map (fun s => mkRegRow s (oracle (k + i) s)) := by
  intro rows
  induction rows with
  | nil => intro k i; simp [registrarLoop]
  | cons s rest ih =>
    intro k i
    cases i with
    | zero =>
      simp only [registrarLoop]
      cases h : oracle k s with
      | ok id => simp [h]
      | failReason name => simp [h]
      | exc msg => simp [h]
    | succ j =>
      have htail : (registrarLoop oracle (k + 1) rest).1.get? j =
          (rest.get? j).map (fun s => mkRegRow s (oracle (k + 1 + j) s)) := ih (k + 1) j
      have harith : k + 1 + j = k + (j + 1) := by omega
      simp only [registrarLoop]
      cases h : oracle k s with
      | ok id => simpa [h, harith] using htail
      | failReason name => simpa [h, harith] using htail
      | exc msg => simpa [h, harith] using htail

lemma registrarLoop_fst_length (oracle : Nat → String → RegOutcome) :
    ∀ (rows : List String) (k : Nat),
      (registrarLoop oracle k rows).1.length = rows.length := by
  intro rows
  induction rows with
  | nil => intro k; simp [registrarLoop]
  | cons s rest ih =>
    intro k
    simp only [registrarLoop]
    cases h : oracle k s with
    | ok id => simp [h, ih]
    | failReason name => simp [h, ih]
    | exc msg => simp [h, ih]

lemma registrarResults_get? (oracle : Nat → String → RegOutcome)
    (rows : List String) (i : Nat) :
    (registrarResults oracle rows).get? i =
      (rows.get? i).map (fun s => mkRegRow s (oracle i s)) := by
  have h := registrarLoop_fst_get? oracle rows 0 i
  simpa [registrarResults] using h

lemma registrarResults_length (oracle : Nat → String → RegOutcome)
    (rows : List String) :
    (registrarResults oracle rows).length = rows.length :=
  registrarLoop_fst_length oracle rows 0

/-- C1: the Registrar appends exactly one result record per input row, in
input iteration order: the output has the same length as the structure
column, and the record at every position carries the input
string of that position — regardless of the per-row registration outcome. -/
theorem registrar_rowcount_and_order (oracle : Nat → String → RegOutcome)
    (rows : List String) :
    (registrarResults oracle rows).length = rows.length ∧
      ∀ i : Nat, ((registrarResults oracle rows).get? i).map RegRow.smiles =
        rows.get? i := by
  refine ⟨registrarResults_length oracle rows, fun i => ?_⟩
  rw [registrarResults_get? oracle rows i]
  cases h : rows.get? i with
  | none => simp
  | some s =>
    cases ho : oracle i s with
    | ok id => simp [mkRegRow, ho]
    | failReason name => simp [mkRegRow, ho]
    | exc msg => simp [mkRegRow, ho]

lemma success_not_startsWithFailed : ¬ startsWithFailed "Success" := by
  rintro ⟨t, ht⟩
  have h2 := congrArg String.data ht
  simp [String.data_append] at h2

lemma startsWithFailed_space (x : String) : startsWithFailed ("Failed: " ++ x) := by
  refine ⟨" " ++ x, ?_⟩
  apply String.ext
  simp [String.data_append]

lemma failed_space_ne_success (x : String) : "Failed: " ++ x ≠ "Success" := by
  intro h
  have h2 := congrArg String.data h
  simp [String.data_append] at h2

lemma registrarLoop_log_mem (oracle : Nat → String → RegOutcome) :
    ∀ (rows : List String) (k i : Nat) (s msg : String),
      rows.get? i = some s → oracle (k + i) s = RegOutcome.exc msg →
      regLogMsg s msg ∈ (registrarLoop oracle k rows).2 := by
  intro rows
  induction rows with
  | nil => intro k i s msg hs _; simp at hs
  | cons s0 rest ih =>
    intro k i s msg hs ho
    cases i with
    | zero =>
      simp only [List.get?] at hs
      cases hs
      simp only [registrarLoop]
      rw [show k + 0 = k from rfl] at ho
      rw [ho]
      exact List.mem_cons_self _ _
    | succ j =>
      simp only [List.get?] at hs
      have harith : k + 1 + j = k + (j + 1) := by omega
      have hmem : regLogMsg s msg ∈ (registrarLoop oracle (k + 1) rest).2 :=
        ih (k + 1) j s msg hs (by rw [harith]; exact ho)
      simp only [registrarLoop]
      cases h : oracle k s0 with
      | ok id => exact hmem
      | failReason name => exact hmem
      | exc m2 => exact List.mem_cons_of_mem _ hmem

/-- C2: every Registrar result record has a status that is exactly one of
`Success` or a string starting with `Failed:`; a `Success` record stores
the numeric id returned by the library call for that row, and every
`Failed:` record stores the missing-value marker as its Compound ID. -/
theorem registrar_status_classification (oracle : Nat → String → RegOutcome)
    (rows : List String) (i : Nat) (r : RegRow)
    (hr : (registrarResults oracle rows).get? i = some r) :
    ((r.status = "Success" ∧ ¬ startsWithFailed r.status) ∨
      (startsWithFailed r.status ∧ r.status ≠ "Success")) ∧
    (r.status = "Success" →
      ∃ s id, rows.get? i = some s ∧ oracle i s = RegOutcome.ok id ∧
        r.compoundId = some id) ∧
    (startsWithFailed r.status → r.compoundId = none) := by
  rw [registrarResults_get? oracle rows i] at hr
  cases hs : rows.get? i with
  | none => rw [hs] at hr; simp at hr
  | some s =>
    rw [hs] at hr
    simp only [Option.map_some', Option.some.injEq] at hr
    cases ho : oracle i s with
    | ok id =>
      rw [ho] at hr
      subst hr
      refine ⟨Or.inl ⟨rfl, success_not_startsWithFailed⟩, ?_, ?_⟩
      · intro _; exact ⟨s, id, rfl, ho, rfl⟩
      · intro hf; exact absurd hf success_not_startsWithFailed
    | failReason name =>
      rw [ho] at hr
      subst hr
      refine ⟨Or.inr ⟨startsWithFailed_space name, failed_space_ne_success name⟩, ?_, ?_⟩
      · intro hst; exact absurd hst (failed_space_ne_success name)
      · intro _; rfl
    | exc msg =>
      rw [ho] at hr
      subst hr
      refine ⟨Or.inr ⟨startsWithFailed_space msg, failed_space_ne_success msg⟩, ?_, ?_⟩
      · intro hst; exact absurd hst (failed_space_ne_success msg)
      · intro _; rfl

theorem registrar_status_classification_witness :
    (registrarResults oracleW ["CCO"]).get? 0 =
      some (RegRow.mk "CCO" (some 1) "Success") ∧
    ((((RegRow.mk "CCO" (some 1) "Success").status = "Success" ∧
        ¬ startsWithFailed (RegRow.mk "CCO" (some 1) "Success").status) ∨
      (startsWithFailed (RegRow.mk "CCO" (some 1) "Success").status ∧
        (RegRow.mk "CCO" (some 1) "Success").status ≠ "Success")) ∧
    ((RegRow.mk "CCO" (some 1) "Success").status = "Success" →
      ∃ s id, ["CCO"].get? 0 = some s ∧ oracleW 0 s = RegOutcome.ok id ∧
        (RegRow.mk "CCO" (some 1) "Success").compoundId = some id) ∧
    (startsWithFailed (RegRow.mk "CCO" (some 1) "Success").status →
      (RegRow.mk "CCO" (some 1) "Success").compoundId = none)) :=
  ⟨by decide,
    registrar_status_classification oracleW ["CCO"] 0
      (RegRow.mk "CCO" (some 1) "Success") (by decide)⟩

/-- C3: when the registration call for a row raises, the exception is
caught: the record of that row has status `Failed: <message>` and a missing
Compound ID, the error message is logged, and the batch still produces
one record for every input row (no abort, no lost rows). -/
theorem registrar_row_exception_isolated (oracle : Nat → String → RegOutcome)
    (rows : List String) (i : Nat) (s msg : String)
    (hs : rows.get? i = some s) (ho : oracle i s = RegOutcome.exc msg) :
    (registrarResults oracle rows).get? i =
      some (RegRow.mk s none ("Failed: " ++ msg)) ∧
    regLogMsg s msg ∈ registrarLog oracle rows ∧
    (registrarResults oracle rows).length = rows.length := by
  refine ⟨?_, ?_, registrarResults_length oracle rows⟩
  · rw [registrarResults_get? oracle rows i, hs]
    simp [mkRegRow, ho]
  · exact registrarLoop_log_mem oracle rows 0 i s msg hs (by simpa using ho)

theorem registrar_row_exception_isolated_witness :
    (["CCO", "bad", "CCN"].get? 2 = some "CCN" ∧
      oracleW 2 "CCN" = RegOutcome.exc "boom") ∧
    ((registrarResults oracleW ["CCO", "bad", "CCN"]).get? 2 =
      some (RegRow.mk "CCN" none ("Failed: " ++ "boom")) ∧
    regLogMsg "CCN" "boom" ∈ registrarLog oracleW ["CCO", "bad", "CCN"] ∧
    (registrarResults oracleW ["CCO", "bad", "CCN"]).length =
      ["CCO", "bad", "CCN"].length) :=
  ⟨⟨by decide, by decide⟩,
    registrar_row_exception_isolated oracleW ["CCO", "bad", "CCN"] 2 "CCN" "boom"
      (by decide) (by decide)⟩

/-- C4 counterexample: a run of the Initializer against an existing
database file completes successfully as a no-op (no `_initdb` call) but
does NOT publish the `lwreg_db_path` flow variable — the publish happens
only inside the creation branch (line 113 of `my_extension.py`), which
the early return at line 96 skips. -/
theorem init_publish_counterexample :
    initExecute initParamsW true = InitExecEffects.mk [] [] ∧
    ("lwreg_db_path", initParamsW.db_path_input) ∉
      (initExecute initParamsW true).flowVars :=
  ⟨rfl, by simp [initExecute]⟩

/-- C4 (amended): when the target file exists, execute is a no-op —
no `_initdb` call and no flow variable; when it does not exist, execute
calls `_initdb` exactly once with the specified configuration record and
publishes the resolved path as the flow variable `lwreg_db_path`.  The
publish happens only on creating runs, not on every successful run. -/
theorem init_execute_behavior (p : InitParams) :
    initExecute p true = InitExecEffects.mk [] [] ∧
    (∃ cfg : InitConfig,
      (initExecute p false).initdbCalls = [cfg] ∧
      cfg.dbname = p.db_path_input ∧
      cfg.dbtype = "sqlite3" ∧
      cfg.standardization =
        (if p.db_canonical_orientation then
          [p.db_standardization_operations, "canonicalize"]
        else [p.db_standardization_operations]) ∧
      cfg.removeHs = (if p.db_remove_Hs then 1 else 0) ∧
      cfg.useTautomerHashv2 = 0 ∧
      cfg.registerConformers = (if p.db_conformer_mode then 1 else 0) ∧
      cfg.numConformerDigits = 3 ∧
      cfg.lwregSchema = "") ∧
    (initExecute p false).flowVars = [("lwreg_db_path", p.db_path_input)] := by
  refine ⟨rfl, ⟨⟨p.db_path_input, "sqlite3",
    [p.db_standardization_operations] ++
      (if p.db_canonical_orientation then ["canonicalize"] else []),
    if p.db_remove_Hs then 1 else 0, 0,
    if p.db_conformer_mode then 1 else 0, 3, ""⟩,
    rfl, rfl, rfl, ?_, rfl, rfl, rfl, rfl, rfl⟩, rfl⟩
  cases p.db_canonical_orientation <;> rfl

/-- C7 counterexample: with the structure column absent, execute raises
the configuration error but only AFTER `lwreg.set_default_config` has
already mutated the process-wide library configuration — the trace of
library calls is not empty, so library-side state is not left
untouched. -/
theorem registrar_missing_column_counterexample :
    "SMILES" ∉ regTableW.columns ∧
    (registrarExecute "db.sqlt" "SMILES" regTableW oracleW).2 =
      Except.error ("Column " ++ "SMILES" ++ " not found in the input data.") ∧
    (registrarExecute "db.sqlt" "SMILES" regTableW oracleW).1 =
      [RegistrarStep.setDefaultConfig "db.sqlt" "sqlite3"] ∧
    [RegistrarStep.setDefaultConfig "db.sqlt" "sqlite3"] ≠
      ([] : List RegistrarStep) := by
  refine ⟨by decide, rfl, rfl, by decide⟩

/-- C7 (amended): when the named structure column is absent from the
input table, execute raises a `ValueError` before any registration call
— no compound is registered — but after the process-wide connection
reconfiguration: the trace consists of exactly the
`set_default_config` call. -/
theorem registrar_missing_column_aborts (dbPath smilesCol : String)
    (tbl : RegTable) (oracle : Nat → String → RegOutcome)
    (h : smilesCol ∉ tbl.columns) :
    (registrarExecute dbPath smilesCol tbl oracle).2 =
      Except.error ("Column " ++ smilesCol ++ " not found in the input data.") ∧
    (registrarExecute dbPath smilesCol tbl oracle).1 =
      [RegistrarStep.setDefaultConfig dbPath "sqlite3"] ∧
    ∀ s, RegistrarStep.registerCall s ∉
      (registrarExecute dbPath smilesCol tbl oracle).1 := by
  refine ⟨?_, ?_, ?_⟩ <;> simp [registrarExecute, h]

theorem registrar_missing_column_aborts_witness :
    "SMILES" ∉ regTableW.columns ∧
    ((registrarExecute "db.sqlt" "SMILES" regTableW oracleW).2 =
      Except.error ("Column " ++ "SMILES" ++ " not found in the input data.") ∧
    (registrarExecute "db.sqlt" "SMILES" regTableW oracleW).1 =
      [RegistrarStep.setDefaultConfig "db.sqlt" "sqlite3"] ∧
    ∀ s, RegistrarStep.registerCall s ∉
      (registrarExecute "db.sqlt" "SMILES" regTableW oracleW).1) :=
  ⟨by decide,
    registrar_missing_column_aborts "db.sqlt" "SMILES" regTableW oracleW
      (by decide)⟩

/-- C8: the configure phase of the Initializer raises its `ValueError` exactly when
the path is empty or whitespace-only or the parent directory does not
exist; when the target file already exists but the path is valid,
configure emits the already-exists warning and does not fail. -/
theorem init_configure_validation (p : String) (fs : FsState) :
    ((initConfigure p fs).2.isSome ↔
      (p = "" ∨ pyStrip p = "" ∨ fs.parentExists = false)) ∧
    (fs.pathExists = true → pyStrip p ≠ "" → fs.parentExists = true →
      (initConfigure p fs).2 = none ∧
      InitWarning.fileExists ∈ (initConfigure p fs).1) := by
  constructor
  · unfold initConfigure
    by_cases h1 : p = "" ∨ pyStrip p = ""
    · simp only [h1, if_true, Option.isSome_some, true_iff]
      tauto
    · cases hpe : fs.parentExists
      · simp [h1]
      · simp [h1]
  · intro hpe hne hpar
    have h1 : ¬(p = "" ∨ pyStrip p = "") := by
      rintro (rfl | h)
      · exact hne rfl
      · exact hne h
    have h2 : ¬(fs.parentExists = false) := by
      rw [hpar]; simp
    simp [initConfigure, h1, h2, hpe]

theorem init_configure_validation_witness :
    (initConfigure "lwreg.sql" (FsState.mk true true)).2 = none ∧
    InitWarning.fileExists ∈ (initConfigure "lwreg.sql" (FsState.mk true true)).1 :=
  (init_configure_validation "lwreg.sql" (FsState.mk true true)).2
    rfl (by decide) rfl

/-- C5: when the library search returns without raising, the Querier
output has one row per returned entry in the order returned by the
library; for a list of pairs both id columns are populated, for a list
of bare ids every `Conf_ID` cell is the missing-value marker; the first
column of every row repeats the query string. -/
theorem querier_result_shape (q : String) (l : List (Int × Int))
    (l2 : List Int) (i : Nat) :
    (queryExecute q (QueryResults.pairs l)).get? i =
      (l.get? i).map (fun mc => QueryRow.mk q mc.1 (some mc.2)) ∧
    (queryExecute q (QueryResults.bare l2)).get? i =
      (l2.get? i).map (fun m => QueryRow.mk q m none) ∧
    (queryExecute q (QueryResults.pairs l)).length = l.length ∧
    (queryExecute q (QueryResults.bare l2)).length = l2.length := by
  refine ⟨?_, ?_, ?_, ?_⟩
  · cases l with
    | nil => simp [queryExecute]
    | cons x xs =>
      have hdef : queryExecute q (QueryResults.pairs (x :: xs)) =
          (x :: xs).map (fun mc => QueryRow.mk q mc.1 (some mc.2)) := rfl
      rw [hdef, List.get?_map]
  · have hdef : queryExecute q (QueryResults.bare l2) =
        l2.map (fun m => QueryRow.mk q m none) := rfl
    rw [hdef, List.get?_map]
  · cases l with
    | nil => simp [queryExecute]
    | cons x xs => simp [queryExecute]
  · simp [queryExecute]

/-- C6: the Retriever builds one retrieval key per input row: with a
`Conf_ID` column present, a row whose cell is not missing yields the
`(Molregno, Conf_ID)` pair and a row with a missing cell yields the bare
`Molregno`; without the column, every row yields its bare `Molregno`. -/
theorem retriever_key_derivation (ms : List Int) (cs : List (Option Int))
    (i : Nat) (hlen : cs.length = ms.length) :
    (buildRetrieveIds (RetTable.mk ms (some cs))).length = ms.length ∧
    (∀ m c, ms.get? i = some m → cs.get? i = some c →
      (buildRetrieveIds (RetTable.mk ms (some cs))).get? i =
        some (match c with
          | some cv => RetKey.pair m cv
          | none => RetKey.bare m)) ∧
    (buildRetrieveIds (RetTable.mk ms none)).get? i =
      (ms.get? i).map RetKey.bare ∧
    (buildRetrieveIds (RetTable.mk ms none)).length = ms.length := by
  refine ⟨?_, ?_, ?_, ?_⟩
  · simp [buildRetrieveIds, List.length_zip, hlen]
  · intro m c hm hc
    have hzip : (ms.zip cs).get? i = some (m, c) := by
      rw [List.get?_zip_eq_some]
      exact ⟨hm, hc⟩
    have hdef : buildRetrieveIds (RetTable.mk ms (some cs)) =
        (ms.zip cs).map (fun mc =>
          match mc.2 with
          | some c => RetKey.pair mc.1 c
          | none => RetKey.bare mc.1) := rfl
    rw [hdef, List.get?_map, hzip]
    rfl
  · have hdef : buildRetrieveIds (RetTable.mk ms none) =
        ms.map RetKey.bare := rfl
    rw [hdef, List.get?_map]
  · simp [buildRetrieveIds]

theorem retriever_key_derivation_witness :
    ([none, some 5] : List (Option Int)).length = ([1, 2] : List Int).length ∧
    (buildRetrieveIds (RetTable.mk [1, 2] (some [none, some 5]))).get? 1 =
      some (RetKey.pair 2 5) :=
  ⟨by decide,
    (retriever_key_derivation [1, 2] [none, some 5] 1 (by decide)).2.1
      2 (some 5) rfl rfl⟩

/-- C9: scalar conversion maps a missing input to a missing output
without consulting any parser; a value whose runtime kind is in the
table is converted by the mapped parser applied to the text of the value; an
RDKit molecule object is passed through unchanged; and a value whose
kind is absent from the table raises a type error naming the value and
its kind. -/
theorem to_rdkit_scalar_spec (slnAvailable : Bool)
    (run : ParseFn → String → Option Mol) :
    toRdkitScalar slnAvailable run none = Except.ok none ∧
    (∀ m : Mol, toRdkitScalar slnAvailable run (some (ChemVal.rdkitMol m)) =
      Except.ok (some m)) ∧
    (∀ (k : MolKind) (s : String) (fn : ParseFn),
      knimeToRdkitMol slnAvailable k = some fn →
      toRdkitScalar slnAvailable run (some (ChemVal.strVal k s)) =
        Except.ok (run fn s)) ∧
    (∀ (k : MolKind) (s : String),
      knimeToRdkitMol slnAvailable k = none →
      toRdkitScalar slnAvailable run (some (ChemVal.strVal k s)) =
        Except.error (UnsupportedTypeErr.mk (ChemVal.strVal k s) k)) := by
  refine ⟨rfl, fun m => rfl, ?_, ?_⟩
  · intro k s fn h
    simp [toRdkitScalar, h]
  · intro k s h
    simp [toRdkitScalar, h]

theorem to_rdkit_scalar_spec_witness :
    knimeToRdkitMol false MolKind.smiles = some ParseFn.molFromSmiles ∧
    toRdkitScalar false runW (some (ChemVal.strVal MolKind.smiles "CCO")) =
      Except.ok (runW ParseFn.molFromSmiles "CCO") ∧
    knimeToRdkitMol false MolKind.cml = none ∧
    toRdkitScalar false runW (some (ChemVal.strVal MolKind.cml "x")) =
      Except.error
        (UnsupportedTypeErr.mk (ChemVal.strVal MolKind.cml "x") MolKind.cml) :=
  ⟨rfl,
    (to_rdkit_scalar_spec false runW).2.2.1 MolKind.smiles "CCO"
      ParseFn.molFromSmiles rfl,
    rfl,
    (to_rdkit_scalar_spec false runW).2.2.2 MolKind.cml "x" rfl⟩

/-- C10: for both factory families, decode is a left inverse of encode:
a non-`None` value of the value class of the factory round-trips to an equal
value — same string content for string-based factories, same string
content and same adapters metadata for adapter factories — and both
encode and decode map `None` to `None`. -/
theorem factory_decode_encode {α : Type} (cls : ValueCls)
    (v : StringValue) (w : AdapterVal α)
    (hv : v.cls = cls) (hw : w.cls = cls) :
    stringFactoryDecode cls (stringFactoryEncode (some v)) = some v ∧
    adapterFactoryDecode cls (adapterFactoryEncode (some w)) = some w ∧
    stringFactoryEncode none = none ∧
    stringFactoryDecode cls none = none ∧
    adapterFactoryEncode (none : Option (AdapterVal α)) = none ∧
    adapterFactoryDecode cls (none : Option (AdapterStorage α)) = none := by
  cases v with
  | mk vc vs =>
    cases w with
    | mk wc ws wa =>
      cases hv
      cases hw
      exact ⟨rfl, rfl, rfl, rfl, rfl, rfl⟩

theorem factory_decode_encode_witness :
    ((StringValue.mk ValueCls.smiles "CCO").cls = ValueCls.smiles ∧
      (AdapterVal.mk ValueCls.smiles "CCO" (some 3)).cls =
        ValueCls.smiles) ∧
    (stringFactoryDecode ValueCls.smiles
        (stringFactoryEncode (some (StringValue.mk ValueCls.smiles "CCO"))) =
      some (StringValue.mk ValueCls.smiles "CCO") ∧
    adapterFactoryDecode ValueCls.smiles
        (adapterFactoryEncode
          (some (AdapterVal.mk ValueCls.smiles "CCO" (some (3 : Nat))))) =
      some (AdapterVal.mk ValueCls.smiles "CCO" (some (3 : Nat)))) :=
  ⟨⟨rfl, rfl⟩,
    (factory_decode_encode ValueCls.smiles
      (StringValue.mk ValueCls.smiles "CCO")
      (AdapterVal.mk ValueCls.smiles "CCO" (some (3 : Nat))) rfl rfl).1,
    (factory_decode_encode ValueCls.smiles
      (StringValue.mk ValueCls.smiles "CCO")
      (AdapterVal.mk ValueCls.smiles "CCO" (some (3 : Nat))) rfl rfl).2.1⟩
